import Mathlib

/-!
Verification of the PouchDB `_changes`-feed filtering proxy
(repository `pouchdb-sync-with-long-polling`).

The authoritative source for the claims is the middleware and policy code
in `src/unnamed/part_004`:
  * `isUserAllowed` (lines 32-61): the visibility policy;
  * `createPouchFilterMiddleware` (lines 77-141): the response-rewriting
    middleware, with its dispatch guard (line 83), its `res.write`
    override (lines 97-126) and its `res.end` override (lines 129-137).

JavaScript dynamic behaviour is embedded explicitly:
  * a thrown `TypeError` (field access on `undefined`) is `Except.error`;
  * `JSON.parse` and the shape of each response line are supplied by an
    oracle `parse : String → ParseResult`, since the middleware only ever
    branches on "parse throws / parsed object has a truthy `id`";
  * the PouchDB `db.get` lookup is an oracle
    `lookup : Nat → String → LookupResult`, indexed by the position of the
    line that issues it, so that the answer may change over time (the real
    store is mutable between two lookups of the same id).
-/

namespace PouchSync

/-- Role of a user, from `src/ts_version/src/schemas.ts` (`User.role`). -/
inductive Role
  | student
  | teacher
  | admin
deriving DecidableEq, Repr

/-- The authenticated principal attached to the request (`req.user`),
carrying the JWT payload fields read by the middleware and the policy. -/
structure User where
  userId : String
  username : String
  role : Role
deriving DecidableEq, Repr

/-- A document as the policy sees it: the dynamic JS object returned by
`db.get`.  Fields that a given document may lack (`teacherId`,
`studentIds`) are `Option`s; `none` models the JS value `undefined`. -/
structure AnyDocument where
  _id : String
  type : String
  teacherId : Option String := none
  studentIds : Option (List String) := none
deriving DecidableEq, Repr

/-- A JavaScript runtime error.  The only one the policy can raise is the
`TypeError` from `doc.studentIds.includes(...)` when `studentIds` is
`undefined`. -/
inductive JsError
  | typeError
deriving DecidableEq, Repr

/-- Shallow embedding of `isUserAllowed` (`src/unnamed/part_004`,
lines 32-61).  The five `if` statements are translated in source order;
JS `&&` / `||` short-circuiting is preserved, so the
`doc.studentIds.includes(user.userId)` access (which throws a `TypeError`
when `studentIds` is `undefined`) is only reached when
`doc.type === 'class' && user.role === 'student'` already holds. -/
def isUserAllowed (user : User) (doc : AnyDocument) : Except JsError Bool :=
  if user.role = Role.admin then
    Except.ok true
  else if doc.type = "user" ∧ doc._id = user.userId then
    Except.ok true
  else if user.role = Role.teacher ∧ (doc.type = "student" ∨ doc.type = "teacher") then
    Except.ok true
  else if doc.type = "class" ∧ user.role = Role.teacher ∧ doc.teacherId = some user.userId then
    Except.ok true
  else if doc.type = "class" ∧ user.role = Role.student then
    match doc.studentIds with
    | none => Except.error JsError.typeError
    | some ids => Except.ok (ids.contains user.userId)
  else
    Except.ok false

/-- Outcome of the `db.get(change.id)` call: the document, a not-found
rejection (PouchDB 404), or a transient failure.  Both rejections are
thrown from the `await` in the middleware. -/
inductive LookupResult
  | found (doc : AnyDocument)
  | notFound
  | failure
deriving DecidableEq, Repr

/-- Outcome of `JSON.parse(line)` as far as the middleware inspects it:
the parse throws, or the parsed object has no truthy `id` field, or it is
a change record with the given `id` (and `deleted` flag, which the
middleware itself never reads). -/
inductive ParseResult
  | notJson
  | noId
  | record (id : String) (deleted : Bool)
deriving DecidableEq, Repr

/-- Splits a character list at newline characters, keeping empty pieces:
the char-level behaviour of `buffer.split('\n')` in JavaScript.  Written
by structural recursion so that concrete runs reduce inside the kernel. -/
def splitNlChars : List Char → List (List Char)
  | [] => [[]]
  | c :: rest =>
    let r := splitNlChars rest
    if c = '\n' then [] :: r
    else
      match r with
      | [] => [[c]]
      | h :: t => (c :: h) :: t

/-- JavaScript `s.split('\n')` on a Lean `String`. -/
def splitNl (s : String) : List String :=
  (splitNlChars s.data).map (fun cs => String.mk cs)

/-- JavaScript falsiness of `line.trim()`: the line consists of
whitespace only (so the middleware treats it as a heartbeat). -/
def jsBlank (s : String) : Bool :=
  s.data.all Char.isWhitespace

/-- The keep/drop decision of the per-line callback in
`createPouchFilterMiddleware` (`src/unnamed/part_004`, lines 105-119),
for the line at position `idx` of the response.  The callback only ever
resolves with the original line (`true` here) or with `null` (`false`):
  * a whitespace-only line is kept for heartbeat;
  * a line whose `JSON.parse` throws falls into the `catch` and is kept;
  * a parsed line without a truthy `id` is kept (`return line`);
  * a change record line triggers `await db.get(change.id)`: if that
    rejects (not-found or transient failure) the `catch` swallows the
    rejection and the line is kept; if it resolves, `isUserAllowed`
    decides — but if `isUserAllowed` itself throws, that too lands in the
    `catch` and the line is kept. -/
def keepLine (user : User) (lookup : Nat → String → LookupResult)
    (parse : String → ParseResult) (idx : Nat) (s : String) : Bool :=
  if jsBlank s then
    true
  else
    match parse s with
    | ParseResult.notJson => true
    | ParseResult.noId => true
    | ParseResult.record id _ =>
      match lookup idx id with
      | LookupResult.found doc =>
        match isUserAllowed user doc with
        | Except.ok true => true
        | Except.ok false => false
        | Except.error _ => true
      | LookupResult.notFound => true
      | LookupResult.failure => true

/-- The per-line callback itself: it resolves with the original line when
`keepLine` holds and with `null` (`none`) otherwise. -/
def filterLine (user : User) (lookup : Nat → String → LookupResult)
    (parse : String → ParseResult) (idx : Nat) (s : String) : Option String :=
  if keepLine user lookup parse idx s then some s else none

/-- Applies the per-line callback to each completed line, numbering the
lines from `idx`, and keeps the lines whose callback resolved with the
line itself: the `allowedLines.filter(line => line !== null)` step of
`src/unnamed/part_004` line 121. -/
def filterLinesFrom (user : User) (lookup : Nat → String → LookupResult)
    (parse : String → ParseResult) : Nat → List String → List String
  | _, [] => []
  | idx, s :: rest =>
    if keepLine user lookup parse idx s then
      s :: filterLinesFrom user lookup parse (idx + 1) rest
    else
      filterLinesFrom user lookup parse (idx + 1) rest

/-- State of one filtered response: the partial-line `buffer`, the number
of completed lines processed so far (used to time-index lookups), and the
payloads handed to `originalWrite` so far, in creation order. -/
structure FilterState where
  buffer : String
  lineCount : Nat
  output : List String
deriving DecidableEq, Repr

/-- Initial state: `let buffer = ''` and no output written. -/
def initState : FilterState := { buffer := "", lineCount := 0, output := [] }

/-- Embedding of the `res.write` override
(`src/unnamed/part_004`, lines 97-126) for one chunk: append the chunk to
the buffer, cut at the last newline (`buffer.lastIndexOf('\n')`; if there
is none, nothing is written), filter the completed lines, and hand
`filtered.join('\n') + '\n'` to `originalWrite`. -/
def processWrite (user : User) (lookup : Nat → String → LookupResult)
    (parse : String → ParseResult) (st : FilterState) (chunk : String) : FilterState :=
  let b := st.buffer ++ chunk
  let segs := splitNl b
  if segs.length ≤ 1 then
    { st with buffer := b }
  else
    let lines := segs.dropLast
    let kept := filterLinesFrom user lookup parse st.lineCount lines
    let out := String.intercalate "\n" kept ++ "\n"
    { buffer := segs.getLastD "",
      lineCount := st.lineCount + lines.length,
      output := st.output ++ [out] }

/-- Embedding of the `res.end` override (`src/unnamed/part_004`,
lines 129-137): if the buffer is non-empty it is handed to
`originalWrite` verbatim — without any filtering.  Returns the final list
of `originalWrite` payloads. -/
def processEnd (st : FilterState) : List String :=
  if st.buffer.length > 0 then st.output ++ [st.buffer] else st.output

/-- A whole filtered response, in the sequential-completion model: the
chunks given to `res.write` in order, then `res.end`.  The result is the
list of payloads written to the underlying response. -/
def runFilter (user : User) (lookup : Nat → String → LookupResult)
    (parse : String → ParseResult) (chunks : List String) : List String :=
  processEnd (chunks.foldl (processWrite user lookup parse) initState)

/-- The lines the client sees on its transport: all written payloads
concatenated, then split at newlines. -/
def outputLines (written : List String) : List String :=
  splitNl (String.join written)

/-- Emission of the buffered `originalWrite` payloads in an arbitrary
completion order.  Each `res.write` call schedules its
`Promise.all(...).then(() => originalWrite(...))` continuation, and
nothing in the middleware sequences one chunk's continuation after the
previous chunk's, so the order in which the payloads reach the socket is
the order in which the per-chunk lookup batches happen to resolve —
any permutation of the creation order. -/
def emitInOrder (order : List Nat) (outs : List String) : List String :=
  order.map (fun i => outs.getD i "")

/-- True when the parse oracle does not classify `s` as a change record
(so the middleware never issues a lookup for it). -/
def recordFree (parse : String → ParseResult) (s : String) : Bool :=
  match parse s with
  | ParseResult.record _ _ => false
  | _ => true

/-- The change-record lines of a line list, in order. -/
def recordLines (parse : String → ParseResult) (lines : List String) : List String :=
  lines.filter (fun s => !recordFree parse s)

/-- The client-side session cursor carried by the feed protocol: the
value of the last forwarded `last_seq` terminator (extracted by the
oracle `lastSeqOf`), which is what a reconnecting client passes back as
its `since` parameter. -/
def cursorAfter (lastSeqOf : String → Option Nat) (lines : List String) : Option Nat :=
  (lines.filterMap lastSeqOf).getLast?

/-- The `res.write` override together with its return value
(`src/unnamed/part_004` line 125: `return true`).  `accepts` models the
Boolean acceptance signal returned by the underlying `originalWrite` for
the k-th write; the code discards that signal inside the `.then`
continuation and returns the literal `true` to its own caller. -/
def processWriteR (user : User) (lookup : Nat → String → LookupResult)
    (parse : String → ParseResult) (_accepts : Nat → Bool)
    (st : FilterState) (chunk : String) : FilterState × Bool :=
  (processWrite user lookup parse st chunk, true)

/-- The spec's visibility decision values. -/
inductive Decision
  | allow
  | deny
deriving DecidableEq, Repr

/-- Renders a decision as the Boolean the code-level policy returns. -/
def Decision.toBool : Decision → Bool
  | Decision.allow => true
  | Decision.deny => false

/-- First-match evaluation of the five policy rules exactly as the spec
words them (claim C5), concretised to this repository's document model:
(1) administrative role; (2) the document's owner identity equals the
principal id — in this schema the only owned documents are `user`
documents, owned by the user whose `_id` they carry; (3) a blanket role
grant over the document's type — the teacher role is granted every
`student` and `teacher` document; (4) membership in, or controllership
of, the document's encoded relation — a `class` document encodes its
roster in `studentIds` and its designated controller in `teacherId`,
with no role qualification in the spec's wording; (5) default deny. -/
def specDecide (u : User) (d : AnyDocument) : Decision :=
  if u.role = Role.admin then Decision.allow
  else if d.type = "user" ∧ d._id = u.userId then Decision.allow
  else if u.role = Role.teacher ∧ (d.type = "student" ∨ d.type = "teacher") then Decision.allow
  else if d.type = "class" ∧
      ((d.studentIds.getD []).contains u.userId = true ∨ d.teacherId = some u.userId) then
    Decision.allow
  else Decision.deny

/-- The five-rule evaluator with rule 4 amended as the code forces:
the relational rule is role-qualified — controllership only counts for a
teacher principal, roster membership only counts for a student
principal. -/
def specDecideAmended (u : User) (d : AnyDocument) : Decision :=
  if u.role = Role.admin then Decision.allow
  else if d.type = "user" ∧ d._id = u.userId then Decision.allow
  else if u.role = Role.teacher ∧ (d.type = "student" ∨ d.type = "teacher") then Decision.allow
  else if d.type = "class" ∧
      ((u.role = Role.teacher ∧ d.teacherId = some u.userId) ∨
       (u.role = Role.student ∧ (d.studentIds.getD []).contains u.userId = true)) then
    Decision.allow
  else Decision.deny

/-- Char-list test that `pat` begins the list `s`. -/
def charsBeginWith : List Char → List Char → Bool
  | [], _ => true
  | _ :: _, [] => false
  | a :: as, b :: bs => a = b && charsBeginWith as bs

/-- Char-list test that `pat` occurs somewhere in `s`. -/
def charsContain (pat : List Char) : List Char → Bool
  | [] => charsBeginWith pat []
  | c :: rest => charsBeginWith pat (c :: rest) || charsContain pat rest

/-- JavaScript `s.includes(pat)` on Lean strings. -/
def jsIncludes (s pat : String) : Bool :=
  charsContain pat.data s.data

/-- JavaScript truthiness of an optional query-string value:
`undefined` and the empty string are falsy. -/
def jsTruthy : Option String → Bool
  | none => false
  | some s => !s.data.isEmpty

/-- The request fields inspected by the middleware's dispatch guard
(`src/unnamed/part_004` line 83): the path, the `feed` query parameter,
and the authenticated user attached by `authMiddleware` (mounted before
the filter on the `/db` route, `src/ts_version/src/server.ts`). -/
structure Req where
  path : String
  feedParam : Option String
  user : Option User
deriving DecidableEq, Repr

/-- What the middleware does with a request: hand it on untouched
(`return next()` before any response method is overridden) or install
the filter for the given user. -/
inductive Dispatch
  | passThrough
  | filtered (u : User)
deriving DecidableEq, Repr

/-- Embedding of the dispatch guard
`if (!req.path.includes('_changes') || !req.query.feed || !user) return next();`
(`src/unnamed/part_004` line 83). -/
def pouchFilterDispatch (req : Req) : Dispatch :=
  match req.user with
  | none => Dispatch.passThrough
  | some u =>
    if jsIncludes req.path "_changes" = true ∧ jsTruthy req.feedParam = true then
      Dispatch.filtered u
    else
      Dispatch.passThrough

/-- The middleware's effect on a whole response: a passed-through request
reaches the client byte-for-byte as the database handler wrote it; a
filtered request goes through `runFilter`. -/
def applyMiddleware (lookup : Nat → String → LookupResult)
    (parse : String → ParseResult) (req : Req) (chunks : List String) : List String :=
  match pouchFilterDispatch req with
  | Dispatch.passThrough => chunks
  | Dispatch.filtered u => runFilter u lookup parse chunks

/-!
Concrete fixtures for the counterexamples and witnesses.  Change lines
are written in the wire shape of a `_changes` row; what the middleware
learns about them comes from the `parse` oracles below, mirroring what
`JSON.parse` would report on these rows.
-/

/-- A student principal. -/
def uStudent : User := { userId := "s1", username := "sally", role := Role.student }

/-- A teacher principal. -/
def uTeacher : User := { userId := "t1", username := "terry", role := Role.teacher }

/-- An administrator principal. -/
def uAdmin : User := { userId := "a1", username := "alice", role := Role.admin }

/-- A class document that `uStudent` may not see: the student is not on
the roster and is not the assigned teacher. -/
def docDenied : AnyDocument :=
  { _id := "d1", type := "class", teacherId := some "t9", studentIds := some [] }

/-- A change row for `docDenied`, as the last piece of a response body,
with no trailing newline. -/
def lineDenied : String := "\x7b\"seq\":2,\"id\":\"d1\"\x7d"

/-- Lookup oracle for the C1 run: `db.get` resolves with `docDenied`. -/
def lookupC1 : Nat → String → LookupResult :=
  fun _ id => if id = "d1" then LookupResult.found docDenied else LookupResult.notFound

/-- Parse oracle for the C1 run. -/
def parseC1 : String → ParseResult :=
  fun s => if s = lineDenied then ParseResult.record "d1" false else ParseResult.noId

/-- A change row whose document lookup always errors. -/
def lineC2 : String := "\x7b\"seq\":7,\"id\":\"x1\"\x7d"

/-- Lookup oracle for the C2 run: every `db.get` rejects with a
transient failure, on every attempt. -/
def lookupC2 : Nat → String → LookupResult := fun _ _ => LookupResult.failure

/-- Parse oracle for the C2 run. -/
def parseC2 : String → ParseResult :=
  fun s => if s = lineC2 then ParseResult.record "x1" false else ParseResult.noId

/-- The class document while `uStudent` is still on the roster. -/
def classRoster : AnyDocument :=
  { _id := "c1", type := "class", teacherId := some "t9", studentIds := some ["s1"] }

/-- The same class document after the roster was emptied. -/
def classStripped : AnyDocument :=
  { _id := "c1", type := "class", teacherId := some "t9", studentIds := some [] }

/-- First C3 change row: an ordinary (non-deleted) change of `c1`. -/
def lineC3a : String := "\x7b\"seq\":1,\"id\":\"c1\"\x7d"

/-- Second C3 change row: the deletion of `c1`. -/
def lineC3b : String := "\x7b\"seq\":2,\"id\":\"c1\",\"deleted\":true\x7d"

/-- Lookup oracle for the C3 run: the store answers the first lookup of
`c1` with the roster version and later lookups with the stripped
version (the document was mutated in between). -/
def lookupC3 : Nat → String → LookupResult :=
  fun i id =>
    if id = "c1" then
      if i = 0 then LookupResult.found classRoster else LookupResult.found classStripped
    else LookupResult.notFound

/-- Parse oracle for the C3 run. -/
def parseC3 : String → ParseResult :=
  fun s =>
    if s = lineC3a then ParseResult.record "c1" false
    else if s = lineC3b then ParseResult.record "c1" true
    else ParseResult.noId

/-- Lookup oracle answering not-found to everything (the normal answer
for a deleted document). -/
def lookupNF : Nat → String → LookupResult := fun _ _ => LookupResult.notFound

/-- Some student document (C4); the admin principal may see anything. -/
def docP : AnyDocument := { _id := "p", type := "student" }

/-- First C4 change row. -/
def lineC4a : String := "\x7b\"seq\":1,\"id\":\"p\"\x7d"

/-- Second C4 change row. -/
def lineC4b : String := "\x7b\"seq\":2,\"id\":\"q\"\x7d"

/-- Lookup oracle for the C4 run. -/
def lookupC4 : Nat → String → LookupResult := fun _ _ => LookupResult.found docP

/-- Parse oracle for the C4 run. -/
def parseC4 : String → ParseResult :=
  fun s =>
    if s = lineC4a then ParseResult.record "p" false
    else if s = lineC4b then ParseResult.record "q" false
    else ParseResult.noId

/-- The `originalWrite` payloads created by the two C4 chunks, in
creation order. -/
def outsC4 : List String :=
  (([lineC4a ++ "\n", lineC4b ++ "\n"]).foldl (processWrite uAdmin lookupC4 parseC4) initState).output

/-- A class document whose roster contains the teacher `t1` but whose
designated teacher is someone else (C5). -/
def dMix : AnyDocument :=
  { _id := "k1", type := "class", teacherId := some "t2", studentIds := some ["t1"] }

/-- A class document with no `studentIds` field at all (C6). -/
def classNoIds : AnyDocument := { _id := "k2", type := "class" }

/-- A change row for `classNoIds`. -/
def lineC6 : String := "\x7b\"seq\":4,\"id\":\"k2\"\x7d"

/-- Lookup oracle for the C6 run. -/
def lookupC6 : Nat → String → LookupResult :=
  fun _ id => if id = "k2" then LookupResult.found classNoIds else LookupResult.notFound

/-- Parse oracle for the C6 run. -/
def parseC6 : String → ParseResult :=
  fun s => if s = lineC6 then ParseResult.record "k2" false else ParseResult.noId

/-- The class C of the spec's example scenario, assigned to teacher
`t1`. -/
def classC : AnyDocument :=
  { _id := "classC", type := "class", teacherId := some "t1", studentIds := some [] }

/-- The student document of the scenario, belonging to a student who is
not in class C. -/
def studentQ : AnyDocument := { _id := "stuQ", type := "student" }

/-- Scenario row seq=1: a change of class C. -/
def lineC7a : String := "\x7b\"seq\":1,\"id\":\"classC\"\x7d"

/-- Scenario row seq=2: a change of the student document. -/
def lineC7b : String := "\x7b\"seq\":2,\"id\":\"stuQ\"\x7d"

/-- Scenario row seq=3: the deletion of class C. -/
def lineC7c : String := "\x7b\"seq\":3,\"id\":\"classC\",\"deleted\":true\x7d"

/-- Scenario terminator row carrying `last_seq = 3`. -/
def lineC7d : String := "\x7b\"last_seq\":3\x7d"

/-- Parse oracle for the scenario run. -/
def parseC7 : String → ParseResult :=
  fun s =>
    if s = lineC7a then ParseResult.record "classC" false
    else if s = lineC7b then ParseResult.record "stuQ" false
    else if s = lineC7c then ParseResult.record "classC" true
    else ParseResult.noId

/-- Lookup oracle for the scenario run: class C is found while it still
exists (the first lookup) and not-found after its deletion; the student
document is always found. -/
def lookupC7 : Nat → String → LookupResult :=
  fun i id =>
    if id = "classC" then
      if i = 0 then LookupResult.found classC else LookupResult.notFound
    else if id = "stuQ" then LookupResult.found studentQ
    else LookupResult.notFound

/-- Extracts the `last_seq` value from the scenario terminator row. -/
def lastSeqC7 : String → Option Nat :=
  fun s => if s = lineC7d then some 3 else none

/-- The scenario response body as one chunk. -/
def chunkC7 : String :=
  lineC7a ++ "\n" ++ lineC7b ++ "\n" ++ lineC7c ++ "\n" ++ lineC7d ++ "\n"

/-- A class document the teacher `t1` may not see (C8 witness). -/
def docK9 : AnyDocument :=
  { _id := "k9", type := "class", teacherId := some "tZ", studentIds := some [] }

/-- A change row for `docK9`. -/
def lineC8r : String := "\x7b\"seq\":9,\"id\":\"k9\"\x7d"

/-- A terminator row carrying `last_seq = 9`. -/
def lineC8t : String := "\x7b\"last_seq\":9\x7d"

/-- Parse oracle for the C8 witness; the bare `],` row of the wire
format does not parse as JSON. -/
def parseC8 : String → ParseResult :=
  fun s =>
    if s = lineC8r then ParseResult.record "k9" false
    else if s = "]," then ParseResult.notJson
    else ParseResult.noId

/-- Lookup oracle for the C8 witness. -/
def lookupC8 : Nat → String → LookupResult :=
  fun _ id => if id = "k9" then LookupResult.found docK9 else LookupResult.notFound

/-- Extracts the `last_seq` value from the C8 terminator row. -/
def lsqC8 : String → Option Nat :=
  fun s => if s = lineC8t then some 9 else none

/-- A `_changes` request carrying an authenticated user and a `feed`
query parameter whose value is the empty string (`?feed=`). -/
def reqC10 : Req :=
  { path := "/db/school-data-shared/_changes", feedParam := some "", user := some uTeacher }

/-- A request with no `feed` parameter and no authenticated user. -/
def reqC10pt : Req := { path := "/db/school-data-shared/x", feedParam := none, user := none }

/-- Lookup oracle for the C10 runs (never consulted on pass-through). -/
def lookupC10 : Nat → String → LookupResult := fun _ _ => LookupResult.notFound

/-- Parse oracle for the C10 runs (never consulted on pass-through). -/
def parseC10 : String → ParseResult := fun _ => ParseResult.noId

end PouchSync

namespace PouchSync

/-- Helper: a line that the parse oracle does not classify as a change
record is always kept by the per-line callback (it never reaches the
policy). -/
theorem keepLine_of_recordFree (user : User) (lk : Nat → String → LookupResult)
    (ps : String → ParseResult) (i : Nat) (s : String)
    (h : recordFree ps s = true) : keepLine user lk ps i s = true := by
  unfold recordFree at h
  unfold keepLine
  split
  · rfl
  · cases hp : ps s with
    | notJson => simp [hp]
    | noId => simp [hp]
    | record id del => rw [hp] at h; simp at h

/-- Helper: filtering the lines of a response commutes with extracting
an attribute that only non-record lines carry — the per-line filter
keeps every non-record line verbatim. -/
theorem filterMap_keepAll (user : User) (lk : Nat → String → LookupResult)
    (ps : String → ParseResult) (lsq : String → Option Nat) :
    ∀ (i : Nat) (lines : List String),
      (∀ s ∈ lines, lsq s ≠ none → recordFree ps s = true) →
      (filterLinesFrom user lk ps i lines).filterMap lsq = lines.filterMap lsq := by
  intro i lines
  induction lines generalizing i with
  | nil => intro _; rfl
  | cons s rest ih =>
    intro h
    unfold filterLinesFrom
    by_cases hk : keepLine user lk ps i s = true
    · rw [if_pos hk, List.filterMap_cons, List.filterMap_cons]
      cases hl : lsq s with
      | none => exact ih (i + 1) (fun t ht => h t (List.mem_cons_of_mem _ ht))
      | some n => rw [ih (i + 1) (fun t ht => h t (List.mem_cons_of_mem _ ht))]
    · rw [if_neg hk]
      have hnone : lsq s = none := by
        by_contra hne
        exact hk (keepLine_of_recordFree user lk ps i s (h s (List.mem_cons_self s rest) hne))
      rw [List.filterMap_cons, hnone]
      exact ih (i + 1) (fun t ht => h t (List.mem_cons_of_mem _ ht))

/-- C1 (code bug).  Non-leakage fails at the final partial-buffer flush:
for the student principal, the lookup of the record on the single chunk
succeeds and the visibility decision is deny, yet when the response ends
with this line still in the buffer (no trailing newline), the `res.end`
override hands the buffer to `originalWrite` unfiltered and the denied
line appears on the transport output. -/
theorem c1_end_flush_writes_denied_line :
    isUserAllowed uStudent docDenied = Except.ok false ∧
    runFilter uStudent lookupC1 parseC1 [lineDenied] = [lineDenied] ∧
    lineDenied ∈ outputLines (runFilter uStudent lookupC1 parseC1 [lineDenied]) := by
  refine ⟨rfl, rfl, ?_⟩
  decide

/-- C2 (code bug).  Fail-closed under lookup failure does not hold: the
lookup for id `x1` rejects on every attempt, yet the change line for
`x1` is forwarded — the `catch` block written for non-JSON lines also
swallows the rejected `db.get` and falls through to `return line`, with
no retry. -/
theorem c2_lookup_error_line_forwarded :
    runFilter uStudent lookupC2 parseC2 [lineC2 ++ "\n"] = [lineC2 ++ "\n"] ∧
    lineC2 ∈ outputLines (runFilter uStudent lookupC2 parseC2 [lineC2 ++ "\n"]) := by
  refine ⟨rfl, ?_⟩
  decide

/-- C3 (counterexample).  A deletion record is NOT forwarded regardless
of lookup outcome: the document `c1` was previously forwarded to the
student (first line, roster version, decision allow), but at the
deletion line the lookup still returns a (now stripped) body, the
policy denies it, and the deletion line is dropped. -/
theorem c3_forwarded_deletion_dropped :
    isUserAllowed uStudent classRoster = Except.ok true ∧
    lookupC3 1 "c1" = LookupResult.found classStripped ∧
    isUserAllowed uStudent classStripped = Except.ok false ∧
    parseC3 lineC3b = ParseResult.record "c1" true ∧
    filterLinesFrom uStudent lookupC3 parseC3 0 [lineC3a, lineC3b] = [lineC3a] :=
  ⟨rfl, rfl, rfl, rfl, rfl⟩

/-- C3 (amended).  A change line whose record has the deleted flag set
is forwarded whenever the document lookup does not return a document
body — in particular when it answers not-found, the normal answer for a
deleted document — because the rejected `db.get` lands in the `catch`
and the line falls through to `return line`. -/
theorem c3_deletion_forwarded_on_lookup_reject (user : User)
    (lk : Nat → String → LookupResult) (ps : String → ParseResult)
    (i : Nat) (s id : String)
    (hps : ps s = ParseResult.record id true)
    (hlk : ∀ doc, lk i id ≠ LookupResult.found doc) :
    filterLine user lk ps i s = some s := by
  have hk : keepLine user lk ps i s = true := by
    unfold keepLine
    split
    · rfl
    · simp only [hps]
      cases hl : lk i id with
      | found doc => exact absurd hl (hlk doc)
      | notFound => rfl
      | failure => rfl
  simp [filterLine, hk]

/-- C3 (witness).  The deletion line of the counterexample run is
forwarded when the lookup answers not-found. -/
theorem c3_deletion_forwarded_on_lookup_reject_witness :
    filterLine uStudent lookupNF parseC3 1 lineC3b = some lineC3b :=
  c3_deletion_forwarded_on_lookup_reject uStudent lookupNF parseC3 1 lineC3b "c1" rfl
    (fun _ h => nomatch h)

/-- C4 (code bug).  Order preservation fails across chunk boundaries:
two writes of one allowed change line each create two `originalWrite`
payloads; when the second chunk's lookup batch resolves first (emission
order `[1, 0]`, a permutation of the creation order), the forwarded
change lines reach the client as `[seq=2, seq=1]`, which is not a
subsequence of the source order `[seq=1, seq=2]`. -/
theorem c4_cross_chunk_reordering :
    outsC4 = [lineC4a ++ "\n", lineC4b ++ "\n"] ∧
    List.Perm [1, 0] (List.range outsC4.length) ∧
    recordLines parseC4 (outputLines (emitInOrder [1, 0] outsC4)) = [lineC4b, lineC4a] ∧
    recordLines parseC4 (outputLines [lineC4a ++ "\n", lineC4b ++ "\n"]) = [lineC4a, lineC4b] ∧
    ¬ List.Sublist [lineC4b, lineC4a] [lineC4a, lineC4b] :=
  ⟨rfl, by decide, rfl, rfl, by decide⟩

/-- C5 (counterexample).  The code is not first-match evaluation of the
spec's five rules: the spec's unqualified relational rule 4 allows a
teacher who appears in a class's `studentIds` roster, but
`isUserAllowed` role-qualifies both relational checks and denies this
principal. -/
theorem c5_spec_rule_counterexample :
    specDecide uTeacher dMix = Decision.allow ∧
    isUserAllowed uTeacher dMix = Except.ok false :=
  ⟨rfl, rfl⟩

/-- C5 (amended).  On documents whose `class` records carry a
`studentIds` field, `isUserAllowed` equals first-match evaluation of the
five rules in the stated order with rule 4 role-qualified: a teacher
principal designated as the class's teacher, or a student principal
listed in the class's roster. -/
theorem c5_rule_order_amended (u : User) (d : AnyDocument)
    (h : d.type = "class" → d.studentIds ≠ none) :
    isUserAllowed u d = Except.ok (specDecideAmended u d).toBool := by
  unfold isUserAllowed specDecideAmended Decision.toBool
  rcases u with ⟨uid, uname, role⟩
  rcases d with ⟨did, dtype, tid, sids⟩
  cases role <;> cases sids <;> split_ifs <;> simp_all

/-- C5 (witness).  The amended rule evaluation agrees with the code on
the counterexample document. -/
theorem c5_rule_order_amended_witness :
    isUserAllowed uTeacher dMix = Except.ok (specDecideAmended uTeacher dMix).toBool :=
  c5_rule_order_amended uTeacher dMix (fun _ => by decide)

/-- C6 (code bug).  The policy is not total: for a student principal and
a class document lacking the `studentIds` field,
`doc.studentIds.includes(user.userId)` throws a `TypeError` instead of
returning a decision — and the middleware's `catch` then forwards the
line, fail-open, as the second conjunct shows. -/
theorem c6_policy_throws_on_missing_roster :
    isUserAllowed uStudent classNoIds = Except.error JsError.typeError ∧
    keepLine uStudent lookupC6 parseC6 0 lineC6 = true :=
  ⟨rfl, rfl⟩

/-- C7 (counterexample).  In the spec's example scenario the seq=2
record DOES appear on the teacher's output: `isUserAllowed` grants a
teacher every `student` document (rule 3), so the claimed output
`[seq=1, seq=3]` with seq=2 never appearing is wrong for this code. -/
theorem c7_scenario_counterexample :
    parseC7 lineC7b = ParseResult.record "stuQ" false ∧
    isUserAllowed uTeacher studentQ = Except.ok true ∧
    lineC7b ∈ outputLines (runFilter uTeacher lookupC7 parseC7 [chunkC7]) := by
  refine ⟨rfl, rfl, ?_⟩
  decide

/-- C7 (amended).  The scenario feed is forwarded in its entirety —
seq=1 (assigned class), seq=2 (student document, teacher blanket
grant), seq=3 (deletion, lookup not-found) and the terminator — and the
session cursor carried by the forwarded `last_seq` terminator is 3
afterwards. -/
theorem c7_scenario_amended :
    runFilter uTeacher lookupC7 parseC7 [chunkC7] = [chunkC7] ∧
    cursorAfter lastSeqC7 (outputLines (runFilter uTeacher lookupC7 parseC7 [chunkC7])) = some 3 :=
  ⟨rfl, rfl⟩

/-- C8 (confirmed).  Frame preservation of non-record content: the
per-line filter keeps verbatim every whitespace-only heartbeat line,
every line that does not parse as JSON, and every parsed line without
an `id` (such as the `last_seq` terminator); a change record whose
lookup succeeds with a denied document produces no output; and on any
line list whose `last_seq`-bearing lines are not change records, the
session cursor read from the filtered output equals the cursor of the
unfiltered input — it advances past denied records. -/
theorem c8_frame_preservation (user : User) (lk : Nat → String → LookupResult)
    (ps : String → ParseResult) (lsq : String → Option Nat) :
    (∀ (i : Nat) (s : String), jsBlank s = true → filterLine user lk ps i s = some s) ∧
    (∀ (i : Nat) (s : String), ps s = ParseResult.notJson → filterLine user lk ps i s = some s) ∧
    (∀ (i : Nat) (s : String), ps s = ParseResult.noId → filterLine user lk ps i s = some s) ∧
    (∀ (i : Nat) (s id : String) (del : Bool) (doc : AnyDocument),
      jsBlank s = false → ps s = ParseResult.record id del →
      lk i id = LookupResult.found doc → isUserAllowed user doc = Except.ok false →
      filterLine user lk ps i s = none) ∧
    (∀ (i : Nat) (lines : List String),
      (∀ s ∈ lines, lsq s ≠ none → recordFree ps s = true) →
      cursorAfter lsq (filterLinesFrom user lk ps i lines) = cursorAfter lsq lines) := by
  refine ⟨?_, ?_, ?_, ?_, ?_⟩
  · intro i s h
    have hk : keepLine user lk ps i s = true := by unfold keepLine; rw [if_pos h]
    simp [filterLine, hk]
  · intro i s h
    have hk : keepLine user lk ps i s = true :=
      keepLine_of_recordFree user lk ps i s (by unfold recordFree; rw [h])
    simp [filterLine, hk]
  · intro i s h
    have hk : keepLine user lk ps i s = true :=
      keepLine_of_recordFree user lk ps i s (by unfold recordFree; rw [h])
    simp [filterLine, hk]
  · intro i s id del doc hb hps hlk hd
    have hk : keepLine user lk ps i s = false := by
      unfold keepLine
      rw [if_neg (by simp [hb])]
      simp only [hps, hlk, hd]
    simp [filterLine, hk]
  · intro i lines h
    unfold cursorAfter
    rw [filterMap_keepAll user lk ps lsq i lines h]

/-- C8 (witness).  Concrete instances: a heartbeat line, a bare `],`
wire row, the `last_seq` terminator, a denied record, and cursor
preservation over a denied-record-plus-terminator line list. -/
theorem c8_frame_preservation_witness :
    filterLine uTeacher lookupC8 parseC8 0 "" = some "" ∧
    filterLine uTeacher lookupC8 parseC8 0 "]," = some "]," ∧
    filterLine uTeacher lookupC8 parseC8 0 lineC8t = some lineC8t ∧
    filterLine uTeacher lookupC8 parseC8 1 lineC8r = none ∧
    cursorAfter lsqC8 (filterLinesFrom uTeacher lookupC8 parseC8 0 [lineC8r, lineC8t]) =
      cursorAfter lsqC8 [lineC8r, lineC8t] :=
  ⟨(c8_frame_preservation uTeacher lookupC8 parseC8 lsqC8).1 0 "" (by decide),
   (c8_frame_preservation uTeacher lookupC8 parseC8 lsqC8).2.1 0 "]," (by decide),
   (c8_frame_preservation uTeacher lookupC8 parseC8 lsqC8).2.2.1 0 lineC8t (by decide),
   (c8_frame_preservation uTeacher lookupC8 parseC8 lsqC8).2.2.2.1 1 lineC8r "k9" false docK9
     (by decide) (by decide) (by decide) rfl,
   (c8_frame_preservation uTeacher lookupC8 parseC8 lsqC8).2.2.2.2 0 [lineC8r, lineC8t]
     (by decide)⟩

/-- C9 (code bug).  Backpressure is never propagated: whatever
acceptance signal the underlying writer returns — including a constant
refusal from a saturated socket — the `res.write` override reports
`true` to its caller, and its behaviour is entirely independent of that
signal. -/
theorem c9_write_always_reports_acceptance (user : User)
    (lk : Nat → String → LookupResult) (ps : String → ParseResult)
    (accepts : Nat → Bool) (st : FilterState) (chunk : String) :
    (processWriteR user lk ps accepts st chunk).2 = true ∧
    processWriteR user lk ps accepts st chunk =
      processWriteR user lk ps (fun _ => false) st chunk :=
  ⟨rfl, rfl⟩

/-- C10 (counterexample).  A `_changes` request that carries a `feed`
query parameter (with the empty value Express produces for `?feed=`)
and an authenticated user is nevertheless passed through with its
response entirely unfiltered, because the guard tests JavaScript
truthiness of `req.query.feed`. -/
theorem c10_empty_feed_param_passthrough :
    jsIncludes reqC10.path "_changes" = true ∧
    reqC10.feedParam.isSome = true ∧
    reqC10.user.isSome = true ∧
    pouchFilterDispatch reqC10 = Dispatch.passThrough ∧
    applyMiddleware lookupC10 parseC10 reqC10 ["x\n"] = ["x\n"] :=
  ⟨by decide, rfl, rfl, by decide, by decide⟩

/-- C10 (amended).  The middleware passes a request through exactly when
the path does not contain `_changes`, or the `feed` parameter is absent
or empty (JavaScript-falsy), or no authenticated user is attached; and
a passed-through response reaches the client exactly as the database
handler wrote it. -/
theorem c10_dispatch_guard_amended (req : Req) :
    (pouchFilterDispatch req = Dispatch.passThrough ↔
      ¬(jsIncludes req.path "_changes" = true ∧ jsTruthy req.feedParam = true ∧
        req.user.isSome = true)) ∧
    (∀ (lk : Nat → String → LookupResult) (ps : String → ParseResult) (chunks : List String),
      pouchFilterDispatch req = Dispatch.passThrough →
      applyMiddleware lk ps req chunks = chunks) := by
  constructor
  · unfold pouchFilterDispatch
    cases hu : req.user with
    | none => simp [hu]
    | some u =>
      split_ifs with hc
      · simp [hu, hc]
      · simp [hu]
        intro h1
        by_contra hb
        simp at hb
        exact hc ⟨h1, hb⟩
  · intro lk ps chunks h
    simp [applyMiddleware, h]

/-- C10 (witness).  A request with no `feed` parameter and no user is
passed through and its response is untouched. -/
theorem c10_dispatch_guard_amended_witness :
    pouchFilterDispatch reqC10pt = Dispatch.passThrough ∧
    applyMiddleware lookupC10 parseC10 reqC10pt ["y\n"] = ["y\n"] :=
  ⟨(c10_dispatch_guard_amended reqC10pt).1.mpr (by decide),
   (c10_dispatch_guard_amended reqC10pt).2 lookupC10 parseC10 ["y\n"]
     ((c10_dispatch_guard_amended reqC10pt).1.mpr (by decide))⟩

end PouchSync
